import Mathlib

/-!
Verification of the aries-vcx connection-establishment core against its
design specification.  Each Rust item under `src/` that a claim refers to is
shallowly embedded as a Lean definition; repository items that are only
declared outside the excerpt are modelled from the specification text and
marked as such in their doc comments.
-/

set_option autoImplicit false

namespace AriesVcx

/- ## Capability registry (src/messages/src/a2a/protocol_registry.rs) -/

/-- Modelled from the spec: the protocol roles a local agent may implement.
The `Actors` enum itself is declared outside the excerpt; only its use in
`ProtocolRegistry::add_protocol` is in `src/`. -/
inductive Actors where
  | Inviter
  | Invitee
  | Issuer
  | Holder
  | Prover
  | Verifier
  | Sender
  | Receiver
deriving DecidableEq, Repr

/-- `ProtocolDescriptor` as constructed in `protocol_registry.rs`: a protocol
identifier `pid` and an optional restricted role list; the struct declaration
itself lives in the discovery module outside the excerpt.  `roles = none`
means no role restriction. -/
structure ProtocolDescriptor where
  pid : String
  roles : Option (List Actors)
deriving DecidableEq, Repr

/-- Modelled from the spec: a protocol family exposes a canonical identifier
(`MessageFamilies::id`) and an optional pair of protocol roles
(`MessageFamilies::actors`); both methods are declared outside the excerpt
and only consumed by `add_protocol` in `src/`. -/
structure MessageFamilies where
  id : String
  actors : Option (Actors × Actors)

/-- `ProtocolRegistry::add_protocol` from `protocol_registry.rs`: the registry
state is the list of descriptors pushed so far; pushing appends at the end.
The four-way match on `(actors.contains(&actor_1), actors.contains(&actor_2))`
is translated case for case. -/
def add_protocol (actors : List Actors) (family : MessageFamilies)
    (protocols : List ProtocolDescriptor) : List ProtocolDescriptor :=
  match family.actors with
  | none => protocols ++ [⟨family.id, none⟩]
  | some (actor_1, actor_2) =>
    match decide (actor_1 ∈ actors), decide (actor_2 ∈ actors) with
    | true, true => protocols ++ [⟨family.id, none⟩]
    | true, false => protocols ++ [⟨family.id, some [actor_1]⟩]
    | false, true => protocols ++ [⟨family.id, some [actor_2]⟩]
    | false, false => protocols

/-- Characters that are metacharacters of the regex dialect used by the
source (`regex` crate). -/
def regexMeta : List Char :=
  ['.', '^', '$', '*', '+', '?', '(', ')', '[', ']', '\x7b', '\x7d', '|', '\\']

/-- Decides whether `pat` occurs at the start of `s`. -/
def litPrefix : List Char → List Char → Bool
  | [], _ => true
  | _ :: _, [] => false
  | p :: ps, c :: cs => p == c && litPrefix ps cs

/-- Decides whether `pat` occurs contiguously anywhere inside `s`
(an unanchored search, as performed by `Regex::is_match`). -/
def litSearch (pat : List Char) : List Char → Bool
  | [] => pat.isEmpty
  | c :: cs => litPrefix pat (c :: cs) || litSearch pat cs

/-- Model of `regex::Regex::new`, an external dependency of the source (not
in `src/`), restricted to the fragment the theorems below exercise: a pattern
with no regex metacharacter compiles, to a matcher that searches for the
pattern as a literal anywhere in the haystack (the crate's `is_match` is an
unanchored search); a bare repetition operator such as the one-character
patterns `"*"` and `"+"` fails to compile in the crate (syntax error:
repetition operator with nothing to repeat), and the model maps every
pattern containing a metacharacter to a compile failure.  Patterns that
contain a metacharacter yet do compile in the crate (such as `"a+"`) are
outside the modelled fragment and are used in no theorem. -/
def rustRegexNew (p : String) : Option (List Char) :=
  if p.data.all (fun c => !regexMeta.contains c) then some p.data else none

/-- `ProtocolRegistry::get_protocols_for_query` from `protocol_registry.rs`:
`Some "*"` and `None` return a clone of the whole registry; any other query is
compiled with `Regex::new` and, on success, filters the registry by an
unanchored `is_match` on each `pid`; a compile error yields the empty vector
(the function is total and returns no error). -/
def get_protocols_for_query (protocols : List ProtocolDescriptor)
    (query : Option String) : List ProtocolDescriptor :=
  match query with
  | some query_ =>
    if query_ = "*" then protocols
    else
      match rustRegexNew query_ with
      | some re => protocols.filter (fun protocol => litSearch re protocol.pid.data)
      | none => []
  | none => protocols

/- ## Invitee connection state machine
(src/aries_vcx/src/protocols/mediated_connection/invitee/states/invited.rs) -/

/-- Modelled from the spec: a service entry of a DID document names the keys
it routes to; the `AriesDidDoc` type is declared in the messages crate outside
the excerpt. -/
structure AriesService where
  service_endpoint : String
  recipient_keys : List String
deriving DecidableEq, Repr

/-- Modelled from the spec: a DID document binds a DID to public keys and
service endpoints; the concrete `AriesDidDoc` declaration is outside the
excerpt, only its use as a state field is in `src/`. -/
structure AriesDidDoc where
  id : String
  public_keys : List String
  service : List AriesService
deriving DecidableEq, Repr

/-- Modelled from the spec: an invitation carries the handshake thread id
established at invitation time together with the inviter's invitation-time
key material and endpoint; the `Invitation` type is declared in the messages
crate outside the excerpt. -/
structure Invitation where
  id : String
  recipient_keys : List String
  service_endpoint : String
deriving DecidableEq, Repr

/-- Modelled from the spec: a connection request carries the shared thread
identifier and the sender's DID document; the `Request` type is declared in
the messages crate outside the excerpt. -/
structure Request where
  thread_id : String
  connection_did_doc : AriesDidDoc
deriving DecidableEq, Repr

/-- A signature block over a connection response.  Modelled from the spec's
crypto collaborator contract: verification of a signature against a public
key is opaque, so a signature is represented by the key that produced it and
`verify` succeeds exactly on that key. -/
structure ConnectionSignature where
  signer : String
deriving DecidableEq, Repr

/-- Modelled from the spec's wallet/crypto collaborator contract:
`verify(PublicKey, bytes, Signature) -> bool` succeeds exactly when the
signature was produced by the given key. -/
def verify (key : String) (sig : ConnectionSignature) : Bool :=
  sig.signer == key

/-- Modelled from the spec: a connection response carries the thread id, the
inviter's DID document and a signature over its contents. -/
structure Response where
  thread_id : String
  connection_did_doc : AriesDidDoc
  connection_sig : ConnectionSignature
deriving DecidableEq, Repr

/-- `InvitedState` from `invited.rs`: exactly the invitation and the resolved
peer DID document, nothing else. -/
structure InvitedState where
  invitation : Invitation
  did_doc : AriesDidDoc
deriving DecidableEq, Repr

/-- `RequestedState`: constructed in `invited.rs` as
`RequestedState { request, did_doc }`; its own declaration (in
`requested.rs`) is outside the excerpt but the construction fixes these two
fields. -/
structure RequestedState where
  request : Request
  did_doc : AriesDidDoc
deriving DecidableEq, Repr

/-- The `From<(InvitedState, Request, AriesDidDoc)>` conversion from
`invited.rs`: discards the prior state and builds the successor from the
supplied request and DID document; it mutates nothing and cannot fail. -/
def RequestedState.from (x : InvitedState × Request × AriesDidDoc) : RequestedState :=
  ⟨x.2.1, x.2.2⟩

/-- Modelled from the spec (§4.3): a DID document is well-formed when its key
set is non-empty and every key a service entry references is listed in the
document.  The validator is a pure function; DID resolution happens in the
calling state machine. -/
def validateDidDoc (doc : AriesDidDoc) : Bool :=
  !doc.public_keys.isEmpty &&
    doc.service.all (fun svc => svc.recipient_keys.all (fun k => doc.public_keys.contains k))

/-- Modelled from the spec (§4.1): the outcome of applying a message to the
invitee state machine — either the successor state of the transition or the
terminal `ProblemReported` with a machine-readable reason. -/
inductive InviteeOutcome (σ : Type) where
  | success (state : σ)
  | problemReported (reason : String)
deriving DecidableEq, Repr

/-- Modelled from the spec (§4.1, `Invited → Requested`): the transition is
guarded on the request carrying the thread id established at invitation time;
on success the successor state is built by the `From` conversion of
`invited.rs`.  The guard itself lives in the state-machine driver, which is
outside the excerpt. -/
def processInvited (state : InvitedState) (request : Request)
    (did_doc : AriesDidDoc) : InviteeOutcome RequestedState :=
  if request.thread_id = state.invitation.id then
    .success (RequestedState.from (state, request, did_doc))
  else
    .problemReported "thread id mismatch"

/-- Modelled from the spec: the `Responded` state reached by the invitee
after verifying a connection response. -/
structure RespondedState where
  response : Response
  did_doc : AriesDidDoc
deriving DecidableEq, Repr

/-- Modelled from the spec (§4.1, `Requested → Responded`): the response's
DID document must validate (§4.3) and its signature must verify against a key
drawn from the original invitation's key material — not from the response's
own document; any failure moves the connection to `ProblemReported`.  The
handler itself is outside the excerpt. -/
def processRequested (invitation : Invitation) (_state : RequestedState)
    (response : Response) : InviteeOutcome RespondedState :=
  if validateDidDoc response.connection_did_doc
      && invitation.recipient_keys.any (fun key => verify key response.connection_sig) then
    .success ⟨response, response.connection_did_doc⟩
  else
    .problemReported "response verification failed"

/- ## Numeric state encoding (src/libvcx_core/src/api_vcx/mod.rs) -/

/-- `VcxStateType` from `api_vcx/mod.rs`, an enum with explicit discriminants
0 through 9. -/
inductive VcxStateType where
  | VcxStateNone
  | VcxStateInitialized
  | VcxStateOfferSent
  | VcxStateRequestReceived
  | VcxStateAccepted
  | VcxStateUnfulfilled
  | VcxStateExpired
  | VcxStateRevoked
  | VcxStateRedirected
  | VcxStateRejected
deriving DecidableEq, Repr

/-- The numeric value of each `VcxStateType` variant, as fixed by the
`enum_number!` expansion (`VcxStateNone = 0`, …, `VcxStateRejected = 9`) and
used by serialization (`*self as u64`). -/
def VcxStateType.toNum : VcxStateType → Nat
  | .VcxStateNone => 0
  | .VcxStateInitialized => 1
  | .VcxStateOfferSent => 2
  | .VcxStateRequestReceived => 3
  | .VcxStateAccepted => 4
  | .VcxStateUnfulfilled => 5
  | .VcxStateExpired => 6
  | .VcxStateRevoked => 7
  | .VcxStateRedirected => 8
  | .VcxStateRejected => 9

/-- `VcxStateType::from_u32` from `api_vcx/mod.rs`: matches 0–7 to the
corresponding variant and every other value to `VcxStateNone`.  The `u32`
argument is embedded as a `Nat`; theorems about it restrict to values below
`2 ^ 32`. -/
def VcxStateType.from_u32 (state : Nat) : VcxStateType :=
  match state with
  | 0 => .VcxStateNone
  | 1 => .VcxStateInitialized
  | 2 => .VcxStateOfferSent
  | 3 => .VcxStateRequestReceived
  | 4 => .VcxStateAccepted
  | 5 => .VcxStateUnfulfilled
  | 6 => .VcxStateExpired
  | 7 => .VcxStateRevoked
  | _ => .VcxStateNone

/- ## Ledger timestamp truncation (src/libvdrtools/src/services/ledger/mod.rs) -/

/-- `LedgerService::datetime_to_date_timestamp`: `time / 86400 * 86400` on
`u64`.  The `u64` arithmetic is embedded as `Nat`: since
`time / 86400 * 86400 ≤ time`, no intermediate value can exceed the input, so
no `mod 2 ^ 64` reduction is needed anywhere. -/
def datetime_to_date_timestamp (time : Nat) : Nat :=
  let SEC_IN_DAY : Nat := 86400
  time / SEC_IN_DAY * SEC_IN_DAY

/- ## Concrete sample values used by witnesses and counterexamples -/

/-- A well-formed sample DID document whose single service references the
document's only key. -/
def sampleDidDoc : AriesDidDoc :=
  ⟨"did:sov:sample", ["sample-key"], [⟨"http://agency.example/endpoint", ["sample-key"]⟩]⟩

/-- A sample invitation pinning the inviter key `"inviter-key"` and the
thread id `"thread-1"`. -/
def sampleInvitation : Invitation :=
  ⟨"thread-1", ["inviter-key"], "http://agency.example/endpoint"⟩

/-- The sample `Requested` state reached after sending the request for
`sampleInvitation`. -/
def sampleRequested : RequestedState :=
  ⟨⟨"thread-1", sampleDidDoc⟩, sampleDidDoc⟩

/-- An internally consistent DID document listing only the forger's key. -/
def forgedDoc : AriesDidDoc :=
  ⟨"did:sov:forged", ["forged-key"], [⟨"http://mitm.example/endpoint", ["forged-key"]⟩]⟩

/-- A forged connection response: its DID document is internally consistent
but its signature was produced by `"forged-key"`, which is not in
`sampleInvitation`'s key material. -/
def forgedResponse : Response :=
  ⟨"thread-1", forgedDoc, ⟨"forged-key"⟩⟩

/-- The registry descriptor of the connections family. -/
def connectionsDescriptor : ProtocolDescriptor :=
  ⟨"https://didcomm.org/connections/1.0", none⟩

/-- The registry descriptor of the trust-ping family. -/
def trustPingDescriptor : ProtocolDescriptor :=
  ⟨"https://didcomm.org/trust_ping/1.0", none⟩

/-- The connections protocol family with its two roles. -/
def connectionsFamily : MessageFamilies :=
  ⟨"https://didcomm.org/connections/1.0", some (Actors.Inviter, Actors.Invitee)⟩

/-- Formalisation of C4's words: an anchored match of a literal pattern
against an identifier — the match must start at the very beginning of the
identifier (as `^pattern` would); full anchoring (`^pattern$`) is stricter
still, so a failure of this check also refutes the full-anchored reading. -/
def anchoredLitMatch (pat s : String) : Bool :=
  litPrefix pat.data s.data

/- ## Theorems -/

/-- C10: `datetime_to_date_timestamp` truncates a timestamp to the start of
its day: the result equals `t - t % 86400`, is divisible by 86400, is at most
`t`, and the function is idempotent. -/
theorem datetime_to_date_timestamp_truncates (t : Nat) :
    datetime_to_date_timestamp t = t - t % 86400
    ∧ 86400 ∣ datetime_to_date_timestamp t
    ∧ datetime_to_date_timestamp t ≤ t
    ∧ datetime_to_date_timestamp (datetime_to_date_timestamp t)
        = datetime_to_date_timestamp t := by
  have h : ∀ n, datetime_to_date_timestamp n = n / 86400 * 86400 := fun n => rfl
  refine ⟨?_, ?_, ?_, ?_⟩
  · rw [h]; omega
  · rw [h]; exact dvd_mul_left 86400 (t / 86400)
  · rw [h]; exact Nat.div_mul_le_self t 86400
  · simp only [h]; omega

/-- C9: `from_u32` is total on u32 inputs, maps 0–7 to the variant with that
numeric value, and maps every other u32 — including 8 and 9, the numeric
values of `VcxStateRedirected` and `VcxStateRejected` — to `VcxStateNone`, so
it is not a left inverse of the numeric encoding for those two variants. -/
theorem from_u32_spec (n : Nat) (hlt : n < 2 ^ 32) :
    (n ≤ 7 → (VcxStateType.from_u32 n).toNum = n)
    ∧ (8 ≤ n → VcxStateType.from_u32 n = .VcxStateNone)
    ∧ VcxStateType.VcxStateRedirected.toNum = 8
    ∧ VcxStateType.VcxStateRejected.toNum = 9
    ∧ VcxStateType.from_u32 VcxStateType.VcxStateRedirected.toNum
        ≠ .VcxStateRedirected
    ∧ VcxStateType.from_u32 VcxStateType.VcxStateRejected.toNum
        ≠ .VcxStateRejected := by
  have _ := hlt
  refine ⟨?_, ?_, rfl, rfl, by decide, by decide⟩
  · intro h7; interval_cases n <;> rfl
  · intro h8
    obtain ⟨m, rfl⟩ : ∃ m, n = m + 8 := ⟨n - 8, by omega⟩
    rfl

/-- Witness for C9 at the concrete input 9 (the numeric value of
`VcxStateRejected`), which is mapped back to `VcxStateNone`. -/
theorem from_u32_spec_witness :
    (9 : Nat) < 2 ^ 32 ∧ VcxStateType.from_u32 9 = .VcxStateNone :=
  ⟨by norm_num, (from_u32_spec 9 (by norm_num)).2.1 (by norm_num)⟩

/-- C7: the `Invited → Requested` conversion is pure: it builds a new
`RequestedState` whose fields are exactly the supplied request and DID
document, independently of the prior state's contents, and equal inputs give
equal successor states. -/
theorem requestedState_from_pure (state state' : InvitedState) (request : Request)
    (did_doc : AriesDidDoc) :
    (RequestedState.from (state, request, did_doc)).request = request
    ∧ (RequestedState.from (state, request, did_doc)).did_doc = did_doc
    ∧ RequestedState.from (state, request, did_doc)
        = RequestedState.from (state', request, did_doc) :=
  ⟨rfl, rfl, rfl⟩

/-- C8: `InvitedState` holds exactly the invitation and the resolved peer DID
document: projecting a state onto that pair is a bijection, so the state
carries no connection-request or connection-response data. -/
theorem invitedState_holds_exactly_invitation_didDoc :
    Function.Bijective (fun s : InvitedState => (s.invitation, s.did_doc)) :=
  ⟨fun a b hab => by
      cases a
      cases b
      simpa using hab,
   fun p => ⟨⟨p.1, p.2⟩, rfl⟩⟩

/-- C6: the invitee's `Invited → Requested` transition succeeds exactly for a
request carrying the thread id established at invitation time, in which case
the successor is built by the `From` conversion of `invited.rs`; a request
whose thread id differs is rejected and never yields a `Requested` state. -/
theorem processInvited_thread_guard (state : InvitedState) (request : Request)
    (did_doc : AriesDidDoc) :
    (request.thread_id = state.invitation.id →
      processInvited state request did_doc
        = .success (RequestedState.from (state, request, did_doc)))
    ∧ (request.thread_id ≠ state.invitation.id →
      processInvited state request did_doc = .problemReported "thread id mismatch") := by
  constructor
  · intro hth
    simp [processInvited, hth]
  · intro hth
    simp [processInvited, hth]

/-- Witness for C6: with the sample invitation (thread id `"thread-1"`), a
request threaded as `"rogue-thread"` is rejected. -/
theorem processInvited_thread_guard_witness :
    processInvited ⟨sampleInvitation, sampleDidDoc⟩ ⟨"rogue-thread", sampleDidDoc⟩
        sampleDidDoc
      = .problemReported "thread id mismatch" :=
  (processInvited_thread_guard ⟨sampleInvitation, sampleDidDoc⟩
    ⟨"rogue-thread", sampleDidDoc⟩ sampleDidDoc).2 (by decide)

/-- C1: no impersonation — a connection response whose DID document is
internally consistent but whose signature was produced by a key not present
in the original invitation's key material is always rejected at the
invitee's `Requested → Responded` transition: the outcome is
`ProblemReported` (so never a `Responded` state). -/
theorem processRequested_no_impersonation (invitation : Invitation)
    (state : RequestedState) (response : Response)
    (hdoc : validateDidDoc response.connection_did_doc = true)
    (hkey : response.connection_sig.signer ∉ invitation.recipient_keys) :
    processRequested invitation state response
      = .problemReported "response verification failed" := by
  have hany : invitation.recipient_keys.any
      (fun key => verify key response.connection_sig) = false := by
    rw [List.any_eq_false]
    intro k hk
    simp only [verify, Bool.not_eq_true, beq_eq_false_iff_ne, ne_eq]
    exact fun he => hkey (he ▸ hk)
  simp [processRequested, hdoc, hany]

/-- Witness for C1: the forged response validates as a document but its
signing key `"forged-key"` is not in the sample invitation's key material,
and the transition reports a problem. -/
theorem processRequested_no_impersonation_witness :
    (validateDidDoc forgedResponse.connection_did_doc = true
      ∧ forgedResponse.connection_sig.signer ∉ sampleInvitation.recipient_keys)
    ∧ processRequested sampleInvitation sampleRequested forgedResponse
        = .problemReported "response verification failed" :=
  ⟨⟨by decide, by decide⟩,
    processRequested_no_impersonation sampleInvitation sampleRequested forgedResponse
      (by decide) (by decide)⟩

/-- C2: registry disclosure asymmetry — for a protocol family with a defined
role pair, `add_protocol` appends a descriptor for the family iff at least
one of its two roles is in the local actor set; with exactly one role present
the descriptor advertises exactly that one role (never both, never an empty
role list); with both present it carries no role restriction; with neither
present the registry is unchanged. -/
theorem add_protocol_disclosure (actors : List Actors) (family : MessageFamilies)
    (protocols : List ProtocolDescriptor) (actor_1 actor_2 : Actors)
    (h : family.actors = some (actor_1, actor_2)) :
    (actor_1 ∈ actors → actor_2 ∈ actors →
      add_protocol actors family protocols = protocols ++ [⟨family.id, none⟩])
    ∧ (actor_1 ∈ actors → actor_2 ∉ actors →
      add_protocol actors family protocols = protocols ++ [⟨family.id, some [actor_1]⟩])
    ∧ (actor_1 ∉ actors → actor_2 ∈ actors →
      add_protocol actors family protocols = protocols ++ [⟨family.id, some [actor_2]⟩])
    ∧ (actor_1 ∉ actors → actor_2 ∉ actors →
      add_protocol actors family protocols = protocols)
    ∧ (add_protocol actors family protocols ≠ protocols
        ↔ (actor_1 ∈ actors ∨ actor_2 ∈ actors)) := by
  by_cases h1 : actor_1 ∈ actors <;> by_cases h2 : actor_2 ∈ actors <;>
    simp [add_protocol, h, h1, h2]

/-- Witness for C2: with only the `Inviter` role locally enabled, the
connections family is registered with exactly the `Inviter` role. -/
theorem add_protocol_disclosure_witness :
    add_protocol [Actors.Inviter] connectionsFamily []
      = [⟨connectionsFamily.id, some [Actors.Inviter]⟩] :=
  (add_protocol_disclosure [Actors.Inviter] connectionsFamily []
    Actors.Inviter Actors.Invitee rfl).2.1 (by decide) (by decide)

/-- C5: the query `"*"` and the absent query both return the full registry,
equal to the registry's contents in registration order. -/
theorem get_protocols_full_registry (protocols : List ProtocolDescriptor) :
    get_protocols_for_query protocols (some "*") = protocols
    ∧ get_protocols_for_query protocols none = protocols :=
  ⟨by simp [get_protocols_for_query], rfl⟩

/-- C3 counterexample: the wildcard `"*"` is itself a query string that fails
to compile as a pattern (a bare repetition operator is a regex syntax error),
yet `get_protocols_for_query` returns the full registry for it rather than
the empty list. -/
theorem get_protocols_invalid_pattern_counterexample :
    rustRegexNew "*" = none
    ∧ get_protocols_for_query [connectionsDescriptor] (some "*")
        = [connectionsDescriptor]
    ∧ [connectionsDescriptor] ≠ ([] : List ProtocolDescriptor) := by
  refine ⟨by decide, ?_, by decide⟩
  simp [get_protocols_for_query]

/-- C3 (amended): for every query string other than the wildcard `"*"` that
fails to compile as a pattern, `get_protocols_for_query` returns the empty
list regardless of the registry contents — and it is a total function into
descriptor lists, so no error is returned or propagated. -/
theorem get_protocols_invalid_pattern_empty (protocols : List ProtocolDescriptor)
    (query : String) (hq : query ≠ "*") (hc : rustRegexNew query = none) :
    get_protocols_for_query protocols (some query) = [] := by
  simp [get_protocols_for_query, hq, hc]

/-- Witness for C3 (amended): `"+"` is not `"*"` and fails to compile (bare
repetition operator), and the query returns the empty list on a non-empty
registry. -/
theorem get_protocols_invalid_pattern_empty_witness :
    (("+" : String) ≠ "*" ∧ rustRegexNew "+" = none)
    ∧ get_protocols_for_query [connectionsDescriptor] (some "+") = [] :=
  ⟨⟨by decide, by decide⟩,
    get_protocols_invalid_pattern_empty [connectionsDescriptor] "+"
      (by decide) (by decide)⟩

/-- C4 counterexample: the query `"connections"` compiles as a literal
pattern and does not match the identifier
`"https://didcomm.org/connections/1.0"` anchored at its start, yet the code
returns that descriptor: `Regex::is_match` performs an unanchored substring
search, so the result differs from the anchored filtering the claim
describes. -/
theorem get_protocols_query_anchored_counterexample :
    rustRegexNew "connections" = some "connections".data
    ∧ anchoredLitMatch "connections" connectionsDescriptor.pid = false
    ∧ get_protocols_for_query [connectionsDescriptor] (some "connections")
        = [connectionsDescriptor]
    ∧ get_protocols_for_query [connectionsDescriptor] (some "connections")
        ≠ [connectionsDescriptor].filter
            (fun d => anchoredLitMatch "connections" d.pid) := by
  refine ⟨by decide, by decide, ?_, ?_⟩ <;> decide

/-- C4 (amended): for every query other than `"*"` that compiles as a
pattern, `get_protocols_for_query` returns exactly the descriptors whose
protocol identifier contains a match of the pattern anywhere inside it (an
unanchored search), in registration order. -/
theorem get_protocols_query_unanchored (protocols : List ProtocolDescriptor)
    (query : String) (re : List Char) (hq : query ≠ "*")
    (hc : rustRegexNew query = some re) :
    get_protocols_for_query protocols (some query)
      = protocols.filter (fun protocol => litSearch re protocol.pid.data) := by
  simp [get_protocols_for_query, hq, hc]

/-- Witness for C4 (amended): the literal query `"connections"` selects the
connections descriptor and drops the trust-ping descriptor. -/
theorem get_protocols_query_unanchored_witness :
    (("connections" : String) ≠ "*"
      ∧ rustRegexNew "connections" = some "connections".data)
    ∧ get_protocols_for_query [connectionsDescriptor, trustPingDescriptor]
        (some "connections") = [connectionsDescriptor] := by
  refine ⟨⟨by decide, by decide⟩, ?_⟩
  rw [get_protocols_query_unanchored [connectionsDescriptor, trustPingDescriptor]
    "connections" "connections".data (by decide) (by decide)]
  decide

end AriesVcx
